import Mathlib

/-!
Verification of the SnowTelemetry pipeline (src/SnowTelemetry.py).

The script has two stages, `RouteStats` and `SnowLines`, orchestrated by
`main`.  We give a shallow embedding of the data-transformation logic:

* the AVL telemetry view `AVL.dbo.vw_AVLplow24` filtered by
  `TEMPORAL < 25 and spd <= 35` (lines 119 / 229);
* the road dissolve: filter `SNOW_FID <> 'NORTE'`, dissolve by
  `SNOW_DIST, SNOW_TYPE, ROAD_NAME` summing `LN_TOTALMI` (lines 188-191);
* the per-class selection `SNOW_TYPE = c And SUM_LN_TOTALMI IS NOT NULL`
  (lines 200-203);
* `SummarizeNearby` with a straight-line radius per class
  (50 ft for classes 1-2, 25 ft for classes 3-4; lines 220-230), which
  counts the AVL *points* within the radius of each selected group;
* the field calculations (lines 238-249):
  `dotsperlanemile = Point_Count / SUM_LN_TOTALMI`,
  the cursor loop computing `maximum` (initialised to 0.0, updated on
  strictly greater values), and
  `dotsperlanemilemax = maximum`,
  `percentage = (dotsperlanemile/dotsperlanemilemax)*100`,
  `log_percentage = math.log1p(percentage)`;
* the destination update discipline `DeleteRows` + `Append`
  (lines 136-146, 192-193, 252-258) as a store of datasets and a step
  sequence with a failure-injection point;
* the exception handling of `main` (lines 288-309).

Numeric fields are modelled by ℚ (the script works with doubles, but all
the arithmetic it performs is field arithmetic, exact on the values we
reason about); Python division by zero is modelled by `Except.error`,
matching the `ZeroDivisionError` the field calculator would raise, and
the domain error of `math.log1p` (a `ValueError` for arguments at most
-1) is modelled the same way.  On the remaining domain `math.log1p` is
total and is kept as a parameter `log1p : ℚ → α` of the pipeline so
that the embedding stays executable; claim C8 instantiates `α := ℝ` with
the hypothesis that `log1p x = Real.log (1 + x)`, which is the
documented semantics of `math.log1p`.
-/

namespace SnowTelemetry

/-- One row of the AVL telemetry view `AVL.dbo.vw_AVLplow24`:
a raw vehicle position ping with its age in hours (`TEMPORAL`) and
speed (`spd`).  The geometry of the ping is abstracted into the
distance oracle `dist` passed to the summarize step. -/
structure Ping where
  temporal : ℚ
  spd : ℚ
deriving DecidableEq

/-- One row of `imSPFLD.COSPW.RoadwayInformation`: a raw road segment.
`ln_totalmi` is nullable (`Option`). -/
structure Segment where
  snow_fid : String
  snow_dist : String
  snow_type : String
  road_name : String
  ln_totalmi : Option ℚ
deriving DecidableEq

/-- One row of the `Dissolved` feature class produced by
`arcpy.Dissolve_management` (line 190): the three key fields plus the
summed length `SUM_LN_TOTALMI`, which ArcGIS leaves null (`none`) when
every member length is null. -/
structure GroupRow where
  snow_dist : String
  snow_type : String
  road_name : String
  sum_ln_totalmi : Option ℚ
deriving DecidableEq

/-- One row of a `SummarizeNearby` output `avlPlowTraffic<i>`
(line 230) before the added fields: the selected group (whose
`SUM_LN_TOTALMI` is not null, hence a plain ℚ here) together with the
`Point_Count` of AVL points within the class radius. -/
structure SumRow where
  snow_dist : String
  snow_type : String
  road_name : String
  sum_ln_totalmi : ℚ
  point_count : ℕ
deriving DecidableEq

/-- A `SumRow` after `CalculateField` has filled `dotsperlanemile`
(line 238). -/
structure DensityRow extends SumRow where
  dotsperlanemile : ℚ
deriving DecidableEq

/-- A finished row of `avlPlowTraffic<i>` after `CalculateFields`
(lines 247-249) has filled the remaining three fields.  The type of
`log_percentage` is a parameter so that the pipeline stays executable:
`math.log1p` maps into ℝ, which has no decidable equality. -/
structure TrafficRow (α : Type) where
  snow_dist : String
  snow_type : String
  road_name : String
  sum_ln_totalmi : ℚ
  point_count : ℕ
  dotsperlanemile : ℚ
  dotsperlanemilemax : ℚ
  percentage : ℚ
  log_percentage : α
deriving DecidableEq

/-- Effectful map over a list in the `Except` monad, written out
recursively so that induction is direct.  This models an arcpy tool
that processes rows one by one and aborts on the first Python error
(`CalculateField` with a raising expression). -/
def mapE (f : α → Except String β) : List α → Except String (List β)
  | [] => .ok []
  | a :: as =>
    match f a with
    | .error e => .error e
    | .ok b =>
      match mapE f as with
      | .error e => .error e
      | .ok bs => .ok (b :: bs)

/-- The AVL layer filter `"TEMPORAL < 25 and spd <= 35"`
(lines 119 and 229). -/
def avlFilter (ps : List Ping) : List Ping :=
  ps.filter (fun p => decide (p.temporal < 25 ∧ p.spd ≤ 35))

/-- The route layer filter `"SNOW_FID <> 'NORTE'"` (lines 188-189).
Note that the field tested against the `'NORTE'` sentinel is
`SNOW_FID`, not the district field `SNOW_DIST`. -/
def notNorte (segs : List Segment) : List Segment :=
  segs.filter (fun s => decide (s.snow_fid ≠ "NORTE"))

/-- The dissolve key `["SNOW_DIST", "SNOW_TYPE", "ROAD_NAME"]`
(line 190). -/
def dissolveKey (s : Segment) : String × String × String :=
  (s.snow_dist, s.snow_type, s.road_name)

/-- ArcGIS `SUM` statistic over the member lengths of one dissolve
group: null values are ignored; if every value is null the sum is
null. -/
def sumLengths (ss : List Segment) : Option ℚ :=
  match ss.filterMap (fun s => s.ln_totalmi) with
  | [] => none
  | v :: vs => some ((v :: vs).sum)

/-- The dissolve `arcpy.Dissolve_management(..., ["SNOW_DIST",
"SNOW_TYPE", "ROAD_NAME"], "LN_TOTALMI SUM")` (line 190): one output
row per distinct key of the input, carrying the summed length of the
members with that key. -/
def dissolve (segs : List Segment) : List GroupRow :=
  ((segs.map dissolveKey).dedup).map (fun k =>
    { snow_dist := k.1
      snow_type := k.2.1
      road_name := k.2.2
      sum_ln_totalmi := sumLengths (segs.filter (fun s => decide (dissolveKey s = k))) })

/-- The published `Dissolved` dataset (lines 188-193): the dissolve of
the road segments surviving the `SNOW_FID <> 'NORTE'` filter. -/
def routeGroups (segs : List Segment) : List GroupRow :=
  dissolve (notNorte segs)

/-- The per-class selection `SNOW_TYPE = c And SUM_LN_TOTALMI IS NOT
NULL` (lines 200-203), paired with the non-null length. -/
def selectClass (c : String) (gs : List GroupRow) : List (GroupRow × ℚ) :=
  gs.filterMap (fun g =>
    match g.sum_ln_totalmi with
    | none => none
    | some L => if g.snow_type = c then some (g, L) else none)

/-- The point count that `SummarizeNearby` attaches to one target
group: the number of source points within `radius` straight-line
distance of the group geometry.  The geometry is abstracted into the
distance oracle `dist`. -/
def pointCount (dist : Ping → GroupRow → ℚ) (ps : List Ping) (g : GroupRow) (radius : ℚ) : ℕ :=
  (ps.filter (fun p => decide (dist p g ≤ radius))).length

/-- One `SummarizeNearby` run (lines 229-230): the AVL layer (filtered
raw pings, remade at line 229) is summarized onto the selected groups
of class `c` with the class radius. -/
def summarize (dist : Ping → GroupRow → ℚ) (pings : List Ping)
    (groups : List GroupRow) (c : String) (radius : ℚ) : List SumRow :=
  (selectClass c groups).map (fun gL =>
    { snow_dist := gL.1.snow_dist
      snow_type := gL.1.snow_type
      road_name := gL.1.road_name
      sum_ln_totalmi := gL.2
      point_count := pointCount dist (avlFilter pings) gL.1 radius })

/-- The field calculation `dotsperlanemile = !Point_Count! /
!SUM_LN_TOTALMI!` (line 238).  Python raises `ZeroDivisionError` when
the summed length is zero (the selection only filtered out nulls). -/
def calcDensity (r : SumRow) : Except String DensityRow :=
  if r.sum_ln_totalmi = 0 then .error "ZeroDivisionError"
  else .ok { toSumRow := r, dotsperlanemile := (r.point_count : ℚ) / r.sum_ln_totalmi }

/-- The rows of `avlPlowTraffic<c>` with `dotsperlanemile` computed, or
the error the field calculator raises on a zero length. -/
def densityRows (dist : Ping → GroupRow → ℚ) (pings : List Ping)
    (groups : List GroupRow) (c : String) (radius : ℚ) : Except String (List DensityRow) :=
  mapE calcDensity (summarize dist pings groups c radius)

/-- The body of the cursor loop at lines 243-245:
`if a_row[0] > maximum: maximum = a_row[0]`. -/
def maxStep (m : ℚ) (r : DensityRow) : ℚ :=
  if m < r.dotsperlanemile then r.dotsperlanemile else m

/-- The cursor loop of lines 241-245:
`maximum = 0.0; for a_row in sc: if a_row[0] > maximum: maximum = a_row[0]`. -/
def classMax (rows : List DensityRow) : ℚ :=
  rows.foldl maxStep 0

/-- The `CalculateFields` call of lines 247-249 on one row:
`dotsperlanemilemax` is stamped with the literal value of `maximum`,
`percentage = (dotsperlanemile/dotsperlanemilemax)*100` (Python raises
`ZeroDivisionError` when `maximum` is zero), and `log_percentage =
log1p(percentage)`.  Python's `math.log1p` raises `ValueError: math
domain error` when its argument is at most -1, so a row whose
percentage is at most -1 also fails instead of being written; the
`log1p` parameter itself therefore only ever receives arguments
greater than -1, on which `math.log1p` is total. -/
def finalizeRow (log1p : ℚ → α) (maximum : ℚ) (r : DensityRow) : Except String (TrafficRow α) :=
  if maximum = 0 then .error "ZeroDivisionError"
  else if r.dotsperlanemile / maximum * 100 ≤ -1 then .error "ValueError"
  else .ok
    { snow_dist := r.snow_dist
      snow_type := r.snow_type
      road_name := r.road_name
      sum_ln_totalmi := r.sum_ln_totalmi
      point_count := r.point_count
      dotsperlanemile := r.dotsperlanemile
      dotsperlanemilemax := maximum
      percentage := r.dotsperlanemile / maximum * 100
      log_percentage := log1p (r.dotsperlanemile / maximum * 100) }

/-- One iteration of the `for snow_type in snow_types` loop
(lines 226-249) up to the finished `avlPlowTraffic<c>` rows: summarize
the class, compute densities, take the class maximum, fill the derived
fields.  An `Except.error` models the arcpy tool failure that a Python
`ZeroDivisionError` in a field expression produces. -/
def classPass (log1p : ℚ → α) (dist : Ping → GroupRow → ℚ) (pings : List Ping)
    (groups : List GroupRow) (c : String) (radius : ℚ) : Except String (List (TrafficRow α)) :=
  match densityRows dist pings groups c radius with
  | .error e => .error e
  | .ok drows => mapE (finalizeRow log1p (classMax drows)) drows

/-- The `snow_types` list of line 220-223, reduced to the data the
pipeline logic uses: the class literal of the selection layer and the
buffer radius in feet. -/
def snowTypesList : List (String × ℚ) := [("1", 50), ("2", 50), ("3", 25), ("4", 25)]

/-- The merged `avlPlowTrafficAll` contents (line 256): the
concatenation of the four per-class outputs, in loop order. -/
def routeStatsAll (log1p : ℚ → α) (dist : Ping → GroupRow → ℚ) (pings : List Ping)
    (groups : List GroupRow) : Except String (List (TrafficRow α)) :=
  match mapE (fun cr => classPass log1p dist pings groups cr.1 cr.2) snowTypesList with
  | .error e => .error e
  | .ok ls => .ok ls.flatten

/-! ### Destination datasets and the clear-then-append discipline

Every destination update in the script is the two-call sequence
`arcpy.DeleteRows_management(dest)` followed by
`arcpy.Append_management(src, dest, "NO_TEST")` (lines 136-146 in
`SnowLines`, lines 192-193, 252-253 and 257-258 in `RouteStats`).  We
model the destinations as a store mapping dataset names to row lists,
a successful run as the in-order application of (clear, append) pairs,
and a failed run as the application of a prefix of the primitive
steps: any arcpy call can raise, and a raise aborts the stage, so the
store a failed run leaves behind is the store after the steps that ran
before the failing call. -/

/-- The destination datasets the script writes (temp and in-memory
workspaces are recomputed every run and are not modelled). -/
inductive DS where
  | dissolved
  | traffic1
  | traffic2
  | traffic3
  | traffic4
  | trafficAll
  | avl24
  | plowPoints
  | plowLines
deriving DecidableEq

/-- A store of destination datasets; rows of type ρ. -/
def Store (ρ : Type) : Type := DS → List ρ

/-- A primitive destination-mutating arcpy call:
`DeleteRows_management` or `Append_management`. -/
inductive Step (ρ : Type) where
  | clear (d : DS)
  | append (d : DS) (rows : List ρ)
deriving DecidableEq

/-- Semantics of one primitive call: `DeleteRows` empties the dataset,
`Append` adds the source rows after the existing ones. -/
def applyStep (s : Store ρ) : Step ρ → Store ρ
  | .clear d => fun d' => if d' = d then [] else s d'
  | .append d rows => fun d' => if d' = d then s d' ++ rows else s d'

/-- A clear-then-append pair expanded into its two primitive calls. -/
def stepsOf (ps : List (DS × List ρ)) : List (Step ρ) :=
  (ps.map (fun p => [Step.clear p.1, Step.append p.1 p.2])).flatten

/-- The store after a run that fails at primitive call number `k`
(0-based): the first `k` calls completed, call `k` raised, nothing
after it ran.  Taking `k` at least the number of calls gives the store
of a successful run. -/
def runStepsUpTo (l : List (Step ρ)) (k : ℕ) (s : Store ρ) : Store ρ :=
  (l.take k).foldl applyStep s

/-- The store after a successful sequence of clear-then-append pairs. -/
def runPairs (ps : List (DS × List ρ)) (s : Store ρ) : Store ρ :=
  ps.foldl (fun s' p => fun d' => if d' = p.1 then p.2 else s' d') s

/-- The destination-update schedule of one whole `main` run, in
program order: `RouteStats` writes `Dissolved` (lines 192-193), the
four class outputs inside the loop (lines 252-253), the merged
`avlPlowTrafficAll` (lines 257-258); then `SnowLines` writes `avl_24`
(lines 136-137), `avlPlowPoints` (lines 141-142) and `avlPlowLines`
(lines 145-146).  The appended contents are parameters: each is a pure
function of the source data computed by the stages modelled above. -/
def fullSchedule (dC c1 c2 c3 c4 allC a24 pts lns : List ρ) : List (DS × List ρ) :=
  [(DS.dissolved, dC), (DS.traffic1, c1), (DS.traffic2, c2), (DS.traffic3, c3),
   (DS.traffic4, c4), (DS.trafficAll, allC), (DS.avl24, a24),
   (DS.plowPoints, pts), (DS.plowLines, lns)]

/-! ### The exception handling of `main` (lines 261-309) -/

/-- The kinds of exception a run can raise, named after the Python
exception classes that appear in `main`'s handlers, plus `other` for
any exception class outside them. -/
inductive PyError where
  | valueError
  | ioError
  | keyError
  | nameError
  | indexError
  | typeError
  | unboundLocalError
  | executeError
  | other
deriving DecidableEq

/-- Whether `main` catches the exception: the first handler catches
`ValueError` (line 288), the second catches `IOError, KeyError,
NameError, IndexError, TypeError, UnboundLocalError,
arcpy.ExecuteError` (line 296).  Both handlers only log and return,
so a caught exception leaves `main` normally. -/
def caughtByMain : PyError → Bool
  | .valueError => true
  | .ioError => true
  | .keyError => true
  | .nameError => true
  | .indexError => true
  | .typeError => true
  | .unboundLocalError => true
  | .executeError => true
  | .other => false

/-- Result of one `main` invocation: whether `SnowLines` was reached,
and the process exit status.  `rs` and `sl` are the outcomes of
`RouteStats()` and `SnowLines()` (`none` = returned normally,
`some e` = raised `e`).  A caught exception is logged and `main`
returns normally, so Python exits with status 0; an uncaught
exception propagates and Python exits with status 1. -/
def mainRun (rs sl : Option PyError) : Bool × ℕ :=
  match rs with
  | some e => (false, if caughtByMain e then 0 else 1)
  | none =>
    match sl with
    | some e => (true, if caughtByMain e then 0 else 1)
    | none => (true, 0)

/-! ### Helper lemmas about `mapE` -/

theorem mapE_cons_error {f : α → Except String β} {a : α} {l : List α} {e : String}
    (h : f a = .error e) : mapE f (a :: l) = .error e := by
  simp [mapE, h]

theorem mapE_ok_mem {f : α → Except String β} :
    ∀ {l : List α} {bs : List β}, mapE f l = .ok bs → ∀ {b : β}, b ∈ bs →
      ∃ a ∈ l, f a = .ok b := by
  intro l
  induction l with
  | nil =>
    intro bs h b hb
    simp only [mapE, Except.ok.injEq] at h
    subst h
    simp at hb
  | cons a as ih =>
    intro bs h b hb
    rw [mapE] at h
    cases hfa : f a with
    | error e => rw [hfa] at h; cases h
    | ok b' =>
      rw [hfa] at h
      cases hme : mapE f as with
      | error e => rw [hme] at h; cases h
      | ok bs' =>
        rw [hme] at h
        cases h
        rcases List.mem_cons.mp hb with hb | hb
        · exact ⟨a, List.mem_cons_self a as, hb ▸ hfa⟩
        · obtain ⟨a', ha', hfa'⟩ := ih hme hb
          exact ⟨a', List.mem_cons_of_mem a ha', hfa'⟩

theorem mapE_mem_ok {f : α → Except String β} :
    ∀ {l : List α} {bs : List β}, mapE f l = .ok bs → ∀ {a : α}, a ∈ l →
      ∃ b ∈ bs, f a = .ok b := by
  intro l
  induction l with
  | nil =>
    intro bs h a ha
    simp at ha
  | cons a' as ih =>
    intro bs h a ha
    rw [mapE] at h
    cases hfa : f a' with
    | error e => rw [hfa] at h; cases h
    | ok b' =>
      rw [hfa] at h
      cases hme : mapE f as with
      | error e => rw [hme] at h; cases h
      | ok bs' =>
        rw [hme] at h
        cases h
        rcases List.mem_cons.mp ha with ha | ha
        · exact ⟨b', List.mem_cons_self b' bs', ha ▸ hfa⟩
        · obtain ⟨b, hb, hfb⟩ := ih hme ha
          exact ⟨b, List.mem_cons_of_mem b' hb, hfb⟩

/-! ### Helper lemmas about the cursor-loop maximum -/

theorem le_maxStep (m : ℚ) (r : DensityRow) : m ≤ maxStep m r := by
  unfold maxStep
  split
  · exact le_of_lt (by assumption)
  · exact le_rfl

theorem dots_le_maxStep (m : ℚ) (r : DensityRow) : r.dotsperlanemile ≤ maxStep m r := by
  unfold maxStep
  split
  · exact le_rfl
  · exact le_of_not_lt (by assumption)

theorem maxStep_eq_max (m : ℚ) (r : DensityRow) : maxStep m r = max m r.dotsperlanemile := by
  unfold maxStep
  rcases lt_or_le m r.dotsperlanemile with h | h
  · rw [if_pos h, max_eq_right h.le]
  · rw [if_neg (not_lt.mpr h), max_eq_left h]

theorem le_foldl_maxStep : ∀ (l : List DensityRow) (a : ℚ), a ≤ l.foldl maxStep a := by
  intro l
  induction l with
  | nil => intro a; exact le_rfl
  | cons r l ih =>
    intro a
    exact le_trans (le_maxStep a r) (ih (maxStep a r))

theorem mem_le_foldl_maxStep :
    ∀ (l : List DensityRow) (a : ℚ) {r : DensityRow}, r ∈ l →
      r.dotsperlanemile ≤ l.foldl maxStep a := by
  intro l
  induction l with
  | nil => intro a r hr; simp at hr
  | cons r' l ih =>
    intro a r hr
    rcases List.mem_cons.mp hr with hr | hr
    · subst hr
      exact le_trans (dots_le_maxStep a r) (le_foldl_maxStep l (maxStep a r))
    · exact ih (maxStep a r') hr

theorem foldl_maxStep_eq_init_or_mem :
    ∀ (l : List DensityRow) (a : ℚ),
      l.foldl maxStep a = a ∨ ∃ r ∈ l, l.foldl maxStep a = r.dotsperlanemile := by
  intro l
  induction l with
  | nil => intro a; exact Or.inl rfl
  | cons r l ih =>
    intro a
    rcases ih (maxStep a r) with h | ⟨r', hr', h⟩
    · by_cases hlt : a < r.dotsperlanemile
      · refine Or.inr ⟨r, List.mem_cons_self r l, ?_⟩
        simp only [List.foldl_cons]
        rw [h]
        unfold maxStep
        rw [if_pos hlt]
      · refine Or.inl ?_
        simp only [List.foldl_cons]
        rw [h]
        unfold maxStep
        rw [if_neg hlt]
    · refine Or.inr ⟨r', List.mem_cons_of_mem r hr', ?_⟩
      simp only [List.foldl_cons]
      exact h

theorem foldl_maxStep_le :
    ∀ (l : List DensityRow) (a c : ℚ), a ≤ c → (∀ r ∈ l, r.dotsperlanemile ≤ c) →
      l.foldl maxStep a ≤ c := by
  intro l
  induction l with
  | nil => intro a c ha _; exact ha
  | cons r l ih =>
    intro a c ha hl
    refine ih (maxStep a r) c ?_ (fun r' hr' => hl r' (List.mem_cons_of_mem r hr'))
    unfold maxStep
    split
    · exact hl r (List.mem_cons_self r l)
    · exact ha

theorem classMax_nonneg (rows : List DensityRow) : 0 ≤ classMax rows :=
  le_foldl_maxStep rows 0

theorem le_classMax {rows : List DensityRow} {r : DensityRow} (hr : r ∈ rows) :
    r.dotsperlanemile ≤ classMax rows :=
  mem_le_foldl_maxStep rows 0 hr

theorem classMax_attained {rows : List DensityRow} (h : classMax rows ≠ 0) :
    ∃ r ∈ rows, r.dotsperlanemile = classMax rows := by
  rcases foldl_maxStep_eq_init_or_mem rows 0 with h0 | ⟨r, hr, hm⟩
  · exact absurd h0 h
  · exact ⟨r, hr, hm.symm⟩

theorem classMax_eq_zero_of_nonpos {rows : List DensityRow}
    (h : ∀ r ∈ rows, r.dotsperlanemile ≤ 0) : classMax rows = 0 :=
  le_antisymm (foldl_maxStep_le rows 0 0 le_rfl h) (classMax_nonneg rows)

/-! ### Helper lemmas tracing rows through the class pass -/

theorem selectClass_mem {c : String} {groups : List GroupRow} {g : GroupRow} {L : ℚ}
    (h : (g, L) ∈ selectClass c groups) :
    g ∈ groups ∧ g.snow_type = c ∧ g.sum_ln_totalmi = some L := by
  unfold selectClass at h
  rw [List.mem_filterMap] at h
  obtain ⟨g', hg', hf⟩ := h
  cases hL : g'.sum_ln_totalmi with
  | none => rw [hL] at hf; cases hf
  | some L' =>
    rw [hL] at hf
    dsimp only at hf
    by_cases hc : g'.snow_type = c
    · rw [if_pos hc] at hf
      obtain ⟨rfl, rfl⟩ : g' = g ∧ L' = L := by
        have := Option.some.inj hf
        exact ⟨congrArg Prod.fst this, congrArg Prod.snd this⟩
      exact ⟨hg', hc, hL⟩
    · rw [if_neg hc] at hf
      cases hf

theorem summarize_mem {dist : Ping → GroupRow → ℚ} {pings : List Ping}
    {groups : List GroupRow} {c : String} {radius : ℚ} {s : SumRow}
    (h : s ∈ summarize dist pings groups c radius) :
    ∃ g L, (g, L) ∈ selectClass c groups ∧
      s = { snow_dist := g.snow_dist, snow_type := g.snow_type, road_name := g.road_name,
            sum_ln_totalmi := L,
            point_count := pointCount dist (avlFilter pings) g radius } := by
  unfold summarize at h
  rw [List.mem_map] at h
  obtain ⟨⟨g, L⟩, hgl, rfl⟩ := h
  exact ⟨g, L, hgl, rfl⟩

theorem calcDensity_ok {s : SumRow} {dr : DensityRow} (h : calcDensity s = .ok dr) :
    s.sum_ln_totalmi ≠ 0 ∧ dr.toSumRow = s ∧
      dr.dotsperlanemile = (s.point_count : ℚ) / s.sum_ln_totalmi := by
  unfold calcDensity at h
  by_cases hz : s.sum_ln_totalmi = 0
  · rw [if_pos hz] at h; cases h
  · rw [if_neg hz] at h
    cases h
    exact ⟨hz, rfl, rfl⟩

theorem finalizeRow_ok {α : Type} {log1p : ℚ → α} {M : ℚ} {r : DensityRow}
    {t : TrafficRow α} (h : finalizeRow log1p M r = .ok t) :
    M ≠ 0 ∧ t.snow_dist = r.snow_dist ∧ t.snow_type = r.snow_type ∧
      t.road_name = r.road_name ∧ t.sum_ln_totalmi = r.sum_ln_totalmi ∧
      t.point_count = r.point_count ∧ t.dotsperlanemile = r.dotsperlanemile ∧
      t.dotsperlanemilemax = M ∧ t.percentage = r.dotsperlanemile / M * 100 ∧
      t.log_percentage = log1p (r.dotsperlanemile / M * 100) := by
  unfold finalizeRow at h
  by_cases hz : M = 0
  · rw [if_pos hz] at h; cases h
  · rw [if_neg hz] at h
    by_cases hd : r.dotsperlanemile / M * 100 ≤ -1
    · rw [if_pos hd] at h; cases h
    · rw [if_neg hd] at h
      cases h
      exact ⟨hz, rfl, rfl, rfl, rfl, rfl, rfl, rfl, rfl, rfl⟩

theorem finalizeRow_ok_domain {α : Type} {log1p : ℚ → α} {M : ℚ} {r : DensityRow}
    {t : TrafficRow α} (h : finalizeRow log1p M r = .ok t) :
    -1 < r.dotsperlanemile / M * 100 := by
  unfold finalizeRow at h
  by_cases hz : M = 0
  · rw [if_pos hz] at h; cases h
  · rw [if_neg hz] at h
    by_cases hd : r.dotsperlanemile / M * 100 ≤ -1
    · rw [if_pos hd] at h; cases h
    · exact not_le.mp hd

theorem classPass_ok {α : Type} {log1p : ℚ → α} {dist : Ping → GroupRow → ℚ}
    {pings : List Ping} {groups : List GroupRow} {c : String} {radius : ℚ}
    {out : List (TrafficRow α)}
    (h : classPass log1p dist pings groups c radius = .ok out) :
    ∃ drows, densityRows dist pings groups c radius = .ok drows ∧
      mapE (finalizeRow log1p (classMax drows)) drows = .ok out := by
  unfold classPass at h
  cases hd : densityRows dist pings groups c radius with
  | error e => rw [hd] at h; cases h
  | ok drows => rw [hd] at h; exact ⟨drows, rfl, h⟩

/-! ### Helper lemmas about the clear-then-append schedule -/

theorem stepsOf_cons {ρ : Type} (p : DS × List ρ) (ps : List (DS × List ρ)) :
    stepsOf (p :: ps) = Step.clear p.1 :: Step.append p.1 p.2 :: stepsOf ps := by
  simp [stepsOf]

/-- After a run that fails at any primitive call, every destination
dataset is in one of three states: untouched (its update had not
started), empty (the failure hit between its `DeleteRows` and its
`Append`), or already holding the new contents scheduled for it. -/
theorem failedRun_trichotomy {ρ : Type} (ps : List (DS × List ρ)) :
    ∀ (k : ℕ) (s : Store ρ) (d : DS),
      runStepsUpTo (stepsOf ps) k s d = s d ∨
      runStepsUpTo (stepsOf ps) k s d = [] ∨
      ∃ rows, (d, rows) ∈ ps ∧ runStepsUpTo (stepsOf ps) k s d = rows := by
  induction ps with
  | nil =>
    intro k s d
    left
    simp [stepsOf, runStepsUpTo]
  | cons p ps ih =>
    intro k s d
    rw [stepsOf_cons]
    match k with
    | 0 =>
      left
      simp [runStepsUpTo]
    | 1 =>
      by_cases hd : d = p.1
      · right; left
        simp [runStepsUpTo, applyStep, hd]
      · left
        simp [runStepsUpTo, applyStep, hd]
    | (k + 2) =>
      have hstep : runStepsUpTo (Step.clear p.1 :: Step.append p.1 p.2 :: stepsOf ps) (k + 2) s
          = runStepsUpTo (stepsOf ps) k
              (applyStep (applyStep s (Step.clear p.1)) (Step.append p.1 p.2)) := by
        simp [runStepsUpTo]
      rw [hstep]
      rcases ih k (applyStep (applyStep s (Step.clear p.1)) (Step.append p.1 p.2)) d with
        h | h | ⟨rows, hmem, h⟩
      · by_cases hd : d = p.1
        · right; right
          refine ⟨p.2, ?_, ?_⟩
          · exact (show (p.1, p.2) = p from rfl) ▸ hd ▸ List.mem_cons_self _ ps
          · rw [h]
            simp [applyStep, hd]
        · left
          rw [h]
          simp [applyStep, hd]
      · right; left
        exact h
      · right; right
        exact ⟨rows, List.mem_cons_of_mem p hmem, h⟩

theorem runPairs_nil {ρ : Type} (s : Store ρ) : runPairs [] s = s := rfl

theorem runPairs_cons {ρ : Type} (p : DS × List ρ) (ps : List (DS × List ρ)) (s : Store ρ) :
    runPairs (p :: ps) s = runPairs ps (fun d' => if d' = p.1 then p.2 else s d') := rfl

theorem runPairs_unscheduled {ρ : Type} :
    ∀ {ps : List (DS × List ρ)} {s : Store ρ} {d : DS},
      (∀ rows, (d, rows) ∉ ps) → runPairs ps s d = s d := by
  intro ps
  induction ps with
  | nil => intro s d _; rfl
  | cons p ps ih =>
    intro s d h
    rw [runPairs_cons]
    have hne : d ≠ p.1 := by
      intro hd
      exact h p.2 (by rw [hd]; exact (show (p.1, p.2) = p from rfl) ▸ List.mem_cons_self _ ps)
    rw [ih (fun rows hmem => h rows (List.mem_cons_of_mem p hmem))]
    simp [hne]

theorem runPairs_congr {ρ : Type} :
    ∀ {ps : List (DS × List ρ)} {s1 s2 : Store ρ},
      (∀ d, (∀ rows, (d, rows) ∉ ps) → s1 d = s2 d) → runPairs ps s1 = runPairs ps s2 := by
  intro ps
  induction ps with
  | nil =>
    intro s1 s2 h
    funext d
    exact h d (fun rows hmem => by simp at hmem)
  | cons p ps ih =>
    intro s1 s2 h
    rw [runPairs_cons, runPairs_cons]
    apply ih
    intro d hd
    by_cases hdp : d = p.1
    · simp [hdp]
    · simp only [if_neg hdp]
      refine h d (fun rows hmem => ?_)
      rcases List.mem_cons.mp hmem with heq | hmem'
      · exact hdp (congrArg Prod.fst heq)
      · exact hd rows hmem'

/-- Clear-then-append runs are idempotent: a second pass over the same
schedule (same computed contents) leaves every dataset as the first
pass did. -/
theorem runPairs_idem {ρ : Type} (ps : List (DS × List ρ)) (s : Store ρ) :
    runPairs ps (runPairs ps s) = runPairs ps s :=
  runPairs_congr (fun _ hd => runPairs_unscheduled hd)

/-! ### Concrete fixtures used by the witnesses and counterexamples -/

/-- Distance oracle placing every ping on top of every group. -/
def distZero : Ping → GroupRow → ℚ := fun _ _ => 0

/-- One fresh, slow ping: passes the `TEMPORAL < 25 and spd <= 35`
filter. -/
def pingW : Ping := { temporal := 0, spd := 0 }

/-- A class-1 dissolved group of length 1 mile. -/
def gA : GroupRow :=
  { snow_dist := "D1", snow_type := "1", road_name := "MAIN ST", sum_ln_totalmi := some 1 }

/-- A class-1 dissolved group whose summed length is negative
(a data-quality case the script does not guard against).  The length
-200 keeps the resulting percentage above -1, inside the domain of
`math.log1p`, so the row really is published. -/
def gB : GroupRow :=
  { snow_dist := "D1", snow_type := "1", road_name := "OAK AVE",
    sum_ln_totalmi := some (-200) }

/-- A class-1 dissolved group whose summed length is zero but not
null: it passes the `SUM_LN_TOTALMI IS NOT NULL` selection. -/
def gZ : GroupRow :=
  { snow_dist := "D1", snow_type := "1", road_name := "ELM ST", sum_ln_totalmi := some 0 }

/-- The summarize row the pipeline produces for `gA` from the single
ping `pingW`. -/
def sA : SumRow :=
  { snow_dist := "D1", snow_type := "1", road_name := "MAIN ST",
    sum_ln_totalmi := 1, point_count := 1 }

/-- The finished traffic row for `gA` in the `[gA]` scenario. -/
def rowA : TrafficRow ℚ :=
  { snow_dist := "D1", snow_type := "1", road_name := "MAIN ST", sum_ln_totalmi := 1,
    point_count := 1, dotsperlanemile := 1, dotsperlanemilemax := 1,
    percentage := 100, log_percentage := 100 }

/-- The finished traffic row for `gB` in the `[gA, gB]` scenario: its
negative length gives density -1/200 and percentage -1/2, which
`math.log1p` accepts, so the row is written with a negative
percentage. -/
def rowB : TrafficRow ℚ :=
  { snow_dist := "D1", snow_type := "1", road_name := "OAK AVE", sum_ln_totalmi := -200,
    point_count := 1, dotsperlanemile := -1/200, dotsperlanemilemax := 1,
    percentage := -1/2, log_percentage := -1/2 }

/-- A segment carrying the `'NORTE'` sentinel in its `SNOW_FID` field:
this is the kind of row the filter at line 189 actually removes. -/
def segNorteW : Segment :=
  { snow_fid := "NORTE", snow_dist := "D1", snow_type := "1",
    road_name := "MAIN ST", ln_totalmi := some 2 }

/-- An ordinary road segment. -/
def segW : Segment :=
  { snow_fid := "A", snow_dist := "D1", snow_type := "1",
    road_name := "MAIN ST", ln_totalmi := some 1 }

/-- The density row the pipeline computes for `gA` from the single
ping `pingW`. -/
def dA : DensityRow := { toSumRow := sA, dotsperlanemile := 1 }

/-- The density row the pipeline computes for `gA` when there are no
pings at all: count 0, density 0. -/
def dZeroA : DensityRow :=
  { toSumRow := { snow_dist := "D1", snow_type := "1", road_name := "MAIN ST",
                  sum_ln_totalmi := 1, point_count := 0 },
    dotsperlanemile := 0 }

/-- A store in which every destination dataset currently holds one row
of previously published data. -/
def oldStore : Store ℕ := fun _ => [7]

/-! ## Claim C5

Claim: no RouteGroup in the published dataset has `district` equal to
the sentinel value `"NORTE"`; every such segment is excluded before
the dissolve.

The filter at line 189 is `SNOW_FID <> 'NORTE'`: it tests the route
identifier field, not the district field `SNOW_DIST` by which the
dissolve groups.  A segment whose `SNOW_DIST` is `"NORTE"` but whose
`SNOW_FID` is not survives the filter and produces a published group
with district `"NORTE"`, so the claim as stated is false; what does
hold is that no segment with `SNOW_FID = 'NORTE'` contributes to any
published group. -/

/-- C5 counterexample: a segment with `SNOW_FID = "A"` and
`SNOW_DIST = "NORTE"` passes the filter, and the published `Dissolved`
dataset then contains a RouteGroup whose district field is the
sentinel `"NORTE"`. -/
theorem C5_counterexample :
    routeGroups [{ snow_fid := "A", snow_dist := "NORTE", snow_type := "1",
                   road_name := "ELEVENTH ST", ln_totalmi := some 3 }] =
      [{ snow_dist := "NORTE", snow_type := "1", road_name := "ELEVENTH ST",
         sum_ln_totalmi := some 3 }] ∧
    ({ snow_dist := "NORTE", snow_type := "1", road_name := "ELEVENTH ST",
       sum_ln_totalmi := some 3 } : GroupRow).snow_dist = "NORTE" := by
  constructor
  · simp [routeGroups, notNorte, dissolve, dissolveKey, sumLengths]
  · rfl

/-- C5 (amended): the sentinel exclusion is on the `SNOW_FID` field: a
segment whose `SNOW_FID` is `'NORTE'` never contributes to the
published dissolve (adding one changes nothing), and every segment
that reaches the dissolve has `SNOW_FID ≠ 'NORTE'`. -/
theorem C5_theorem : ∀ (s0 : Segment) (segs : List Segment),
    s0.snow_fid = "NORTE" →
    routeGroups (s0 :: segs) = routeGroups segs ∧
    ∀ s ∈ notNorte segs, s.snow_fid ≠ "NORTE" := by
  intro s0 segs h
  constructor
  · simp [routeGroups, notNorte, List.filter_cons, h]
  · intro s hs
    rw [notNorte, List.mem_filter] at hs
    exact of_decide_eq_true hs.2

/-- C5 witness: the amended statement applied to a concrete sentinel
segment and a concrete ordinary segment. -/
theorem C5_witness :
    routeGroups (segNorteW :: [segW]) = routeGroups [segW] :=
  (C5_theorem segNorteW [segW] rfl).1

/-! ## Claim C6

Claim: a failed run leaves the previously published destination
datasets intact and never empty or partially overwritten.

Every destination update is a bare `DeleteRows` followed by `Append`
with no transaction: a failure raised by the `Append` (or by any later
stage) leaves the destination empty, and destinations updated before
the failing call already hold the new run's rows while later ones
still hold the old ones.  The claim as stated is false; what does hold
is the trichotomy: after a failure each destination is unchanged,
empty, or fully holds its newly computed contents. -/

/-- C6 counterexample: the run fails at primitive call 1 — the
`Append` onto `Dissolved` at line 193, right after the `DeleteRows` at
line 192 succeeded.  The previously published rows of `Dissolved` are
destroyed: the destination is left empty, not intact. -/
theorem C6_counterexample :
    runStepsUpTo (stepsOf (fullSchedule [1] [1] [1] [1] [1] [1] [1] [1] [1]))
      1 oldStore DS.dissolved = [] ∧
    oldStore DS.dissolved = [7] := by
  constructor
  · simp [fullSchedule, stepsOf, runStepsUpTo, applyStep, oldStore]
  · rfl

/-- C6 (amended): after a run of the script's destination-update
schedule fails at any primitive call, each destination dataset is in
one of exactly three states: untouched from the previous run, empty
(the failure hit between its `DeleteRows` and its `Append`), or
holding the new contents computed for it this run. -/
theorem C6_theorem {ρ : Type} (dC c1 c2 c3 c4 allC a24 pts lns : List ρ)
    (k : ℕ) (s : Store ρ) (d : DS) :
    runStepsUpTo (stepsOf (fullSchedule dC c1 c2 c3 c4 allC a24 pts lns)) k s d = s d ∨
    runStepsUpTo (stepsOf (fullSchedule dC c1 c2 c3 c4 allC a24 pts lns)) k s d = [] ∨
    ∃ rows, (d, rows) ∈ fullSchedule dC c1 c2 c3 c4 allC a24 pts lns ∧
      runStepsUpTo (stepsOf (fullSchedule dC c1 c2 c3 c4 allC a24 pts lns)) k s d = rows :=
  failedRun_trichotomy _ k s d

/-! ## Claim C7

Claim: on any fatal condition the process exits with a non-zero
status.

`main` catches `ValueError` and the tuple `(IOError, KeyError,
NameError, IndexError, TypeError, UnboundLocalError,
arcpy.ExecuteError)`, logs, and returns normally (lines 288-301), so
Python exits with status 0 for all of these — including the
geospatial engine's `ExecuteError` and the I/O errors an unreachable
source raises.  Only an exception outside the handled set exits
non-zero.  The claim as stated is false. -/

/-- C7 counterexample: `RouteStats` raising `arcpy.ExecuteError` — the
fatal collaborator failure named by the spec — is caught and logged,
and the process exit status is 0, not non-zero (`SnowLines` is also
skipped). -/
theorem C7_counterexample :
    mainRun (some PyError.executeError) none = (false, 0) ∧
    caughtByMain PyError.executeError = true := by
  constructor <;> rfl

/-- C7 (amended): the process exits non-zero exactly when the stage
that raised did so with an exception class outside `main`'s two
handlers; every handled exception class — including
`arcpy.ExecuteError` and `IOError` — is logged and the process exits
zero. -/
theorem C7_theorem : ∀ (rs sl : Option PyError),
    (mainRun rs sl).2 ≠ 0 ↔
      ∃ e, caughtByMain e = false ∧ (rs = some e ∨ (rs = none ∧ sl = some e)) := by
  intro rs sl
  cases rs with
  | some e =>
    cases hc : caughtByMain e with
    | true => simp [mainRun, hc]
    | false =>
      constructor
      · intro _
        exact ⟨e, hc, Or.inl rfl⟩
      · intro _
        simp [mainRun, hc]
  | none =>
    cases sl with
    | some e =>
      cases hc : caughtByMain e with
      | true => simp [mainRun, hc]
      | false =>
        constructor
        · intro _
          exact ⟨e, hc, Or.inr ⟨rfl, rfl⟩⟩
        · intro _
          simp [mainRun, hc]
    | none => simp [mainRun]

/-! ## Claim C9

Claim: running the whole pipeline twice on identical input leaves
every destination dataset with exactly the records of the first run.

The published contents are pure functions of the source snapshot
(`routeStatsAll`, the dissolve, and the `SnowLines` point/line builds
read only source views and freshly recomputed temporaries, never the
destinations), so both runs append the same contents; and
clear-then-append sets each scheduled destination to exactly the
appended contents regardless of what was there before.  Hence a
second run is a no-op on the store. -/

/-- C9: clear-then-append idempotence of the full destination-update
schedule: running the schedule again with the same computed contents
(identical input) leaves the store exactly as the first run did, for
every destination dataset. -/
theorem C9_theorem {ρ : Type} (dC c1 c2 c3 c4 allC a24 pts lns : List ρ) (s : Store ρ) :
    runPairs (fullSchedule dC c1 c2 c3 c4 allC a24 pts lns)
        (runPairs (fullSchedule dC c1 c2 c3 c4 allC a24 pts lns) s) =
      runPairs (fullSchedule dC c1 c2 c3 c4 allC a24 pts lns) s :=
  runPairs_idem _ _

/-! ## Claim C10

Claim: the per-class maximum written into `dotsperlanemilemax` is the
maximum of 0.0 and the records' densities (it starts at 0.0 and is
updated only on strictly greater values), the same non-negative
constant for every record of the class.

This is exactly the cursor loop of lines 241-245 plus the stamping at
line 247; when every density is zero or negative the computed maximum
is 0 (though in that case the subsequent percentage calculation
fails, see C2, so rows are only stamped when some density is
positive). -/

/-- C10: the loop maximum equals the fold of `max` over the densities
started at 0, is non-negative, collapses to 0 when every density is
non-positive, and is the single constant stamped into
`dotsperlanemilemax` of every row the class pass outputs. -/
theorem C10_theorem : ∀ (α : Type) (log1p : ℚ → α) (dist : Ping → GroupRow → ℚ)
    (pings : List Ping) (groups : List GroupRow) (c : String) (radius : ℚ)
    (drows : List DensityRow) (out : List (TrafficRow α)),
    densityRows dist pings groups c radius = .ok drows →
    classPass log1p dist pings groups c radius = .ok out →
    0 ≤ classMax drows ∧
    classMax drows = drows.foldl (fun m r => max m r.dotsperlanemile) 0 ∧
    ((∀ r ∈ drows, r.dotsperlanemile ≤ 0) → classMax drows = 0) ∧
    ∀ t ∈ out, t.dotsperlanemilemax = classMax drows := by
  intro α log1p dist pings groups c radius drows out hd hp
  obtain ⟨drows', hd', hmap⟩ := classPass_ok hp
  have hdd : drows = drows' := by
    rw [hd] at hd'
    exact Except.ok.inj hd'
  subst hdd
  refine ⟨classMax_nonneg drows, ?_, classMax_eq_zero_of_nonpos, ?_⟩
  · have hfun : maxStep = fun m r => max m r.dotsperlanemile :=
      funext fun m => funext fun r => maxStep_eq_max m r
    rw [classMax, hfun]
  · intro t ht
    obtain ⟨dr, _, hfin⟩ := mapE_ok_mem hmap ht
    exact (finalizeRow_ok hfin).2.2.2.2.2.2.2.1

/-- C10 witness: the single-record class-1 scenario, where the loop
maximum is 1 and is stamped into the one output row. -/
theorem C10_witness :
    0 ≤ classMax [dA] ∧
    classMax [dA] = [dA].foldl (fun m r => max m r.dotsperlanemile) 0 ∧
    rowA.dotsperlanemilemax = classMax [dA] := by
  have h := C10_theorem ℚ (fun q => q) distZero [pingW] [gA] "1" 50 [dA] [rowA]
    (by norm_num [densityRows, summarize, selectClass, pointCount, avlFilter,
      calcDensity, mapE, distZero, pingW, gA, dA, sA, List.filter])
    (by norm_num [classPass, densityRows, summarize, selectClass, pointCount, avlFilter,
      calcDensity, mapE, classMax, maxStep, finalizeRow, distZero, pingW, gA, rowA,
      List.filter])
  exact ⟨h.1, h.2.1, h.2.2.2 rowA (List.mem_singleton.mpr rfl)⟩

/-! ## Claim C1

Claim: in every class with a positive-density record, the maximum of
`density_pct` is exactly 100 (all tied maxima receive 100) and every
record's `density_pct` lies in [0, 100].

The 100-for-the-maximum part and the upper bound hold.  The lower
bound does not: `Point_Count` is a count, but `SUM_LN_TOTALMI` is an
unvalidated double, and a record whose summed length is negative has
negative density, hence a negative percentage — the script has no
guard (the spec itself lists a negative `total_length_miles` as a
data-quality case, and the code does not skip it).  Such a record is
really written whenever its percentage stays above -1, where
`math.log1p` is defined; at -1 or below the log step raises instead
(see `finalizeRow`), so the counterexample uses a long negative
group, percentage -1/2. -/

/-- C1 counterexample: class 1 holds `gA` (length 1) and `gB` (length
-200); one ping is within radius of both.  The pass succeeds — `gB`'s
percentage -1/2 is inside the domain of `math.log1p` — `gA` has
positive density, yet `gB`'s published `percentage` is -1/2, outside
[0, 100]. -/
theorem C1_counterexample :
    classPass (fun q => q) distZero [pingW] [gA, gB] "1" 50 = .ok [rowA, rowB] ∧
    0 < rowA.dotsperlanemile ∧ rowB.percentage < 0 := by
  refine ⟨?_, by norm_num [rowA], by norm_num [rowB]⟩
  norm_num [classPass, densityRows, summarize, selectClass, pointCount, avlFilter,
    calcDensity, mapE, classMax, maxStep, finalizeRow, distZero, pingW, gA, gB, rowA, rowB,
    List.filter]

/-- C1 (amended): when a class pass succeeds and some output record
has positive density, some record's `percentage` is exactly 100,
every record's `percentage` is at most 100, every record of
non-negative density has `percentage` at least 0, every record of
negative density has `percentage` strictly between -1 and 0 (more
negative percentages make `math.log1p` raise, so such rows are never
published), and every record whose density ties the class maximum
gets exactly 100. -/
theorem C1_theorem : ∀ (α : Type) (log1p : ℚ → α) (dist : Ping → GroupRow → ℚ)
    (pings : List Ping) (groups : List GroupRow) (c : String) (radius : ℚ)
    (out : List (TrafficRow α)) (r0 : TrafficRow α),
    classPass log1p dist pings groups c radius = .ok out →
    r0 ∈ out → 0 < r0.dotsperlanemile →
    (∃ r ∈ out, r.percentage = 100) ∧
    (∀ r ∈ out, r.percentage ≤ 100) ∧
    (∀ r ∈ out, 0 ≤ r.dotsperlanemile → 0 ≤ r.percentage) ∧
    (∀ r ∈ out, r.dotsperlanemile < 0 → -1 < r.percentage ∧ r.percentage < 0) ∧
    (∀ r ∈ out, r.dotsperlanemile = r.dotsperlanemilemax → r.percentage = 100) := by
  intro α log1p dist pings groups c radius out r0 hp hr0 _hpos
  obtain ⟨drows, _hd, hmap⟩ := classPass_ok hp
  obtain ⟨dr0, _hdr0, hfin0⟩ := mapE_ok_mem hmap hr0
  have hM0 : classMax drows ≠ 0 := (finalizeRow_ok hfin0).1
  have hMpos : 0 < classMax drows := lt_of_le_of_ne (classMax_nonneg drows) (Ne.symm hM0)
  refine ⟨?_, ?_, ?_, ?_, ?_⟩
  · obtain ⟨drM, hdrM, hEq⟩ := classMax_attained hM0
    obtain ⟨t, ht, hfint⟩ := mapE_mem_ok hmap hdrM
    refine ⟨t, ht, ?_⟩
    have hpct := (finalizeRow_ok hfint).2.2.2.2.2.2.2.2.1
    rw [hpct, hEq, div_self hM0, one_mul]
  · intro r hr
    obtain ⟨dr, hdr, hfin⟩ := mapE_ok_mem hmap hr
    have hpct := (finalizeRow_ok hfin).2.2.2.2.2.2.2.2.1
    rw [hpct]
    have h1 : dr.dotsperlanemile / classMax drows ≤ 1 :=
      (div_le_one hMpos).mpr (le_classMax hdr)
    calc dr.dotsperlanemile / classMax drows * 100
        ≤ 1 * 100 := mul_le_mul_of_nonneg_right h1 (by norm_num)
      _ = 100 := one_mul 100
  · intro r hr hge
    obtain ⟨dr, _hdr, hfin⟩ := mapE_ok_mem hmap hr
    have hdots := (finalizeRow_ok hfin).2.2.2.2.2.2.1
    have hpct := (finalizeRow_ok hfin).2.2.2.2.2.2.2.2.1
    rw [hpct]
    have hnn : 0 ≤ dr.dotsperlanemile := by rw [← hdots]; exact hge
    exact mul_nonneg (div_nonneg hnn hMpos.le) (by norm_num)
  · intro r hr hneg
    obtain ⟨dr, _hdr, hfin⟩ := mapE_ok_mem hmap hr
    have hdots := (finalizeRow_ok hfin).2.2.2.2.2.2.1
    have hpct := (finalizeRow_ok hfin).2.2.2.2.2.2.2.2.1
    constructor
    · rw [hpct]
      exact finalizeRow_ok_domain hfin
    · rw [hpct]
      have hdneg : dr.dotsperlanemile < 0 := by rw [← hdots]; exact hneg
      exact mul_neg_of_neg_of_pos (div_neg_of_neg_of_pos hdneg hMpos) (by norm_num)
  · intro r hr htie
    obtain ⟨dr, _hdr, hfin⟩ := mapE_ok_mem hmap hr
    have hdots := (finalizeRow_ok hfin).2.2.2.2.2.2.1
    have hmax := (finalizeRow_ok hfin).2.2.2.2.2.2.2.1
    have hpct := (finalizeRow_ok hfin).2.2.2.2.2.2.2.2.1
    have hEq : dr.dotsperlanemile = classMax drows := by rw [← hdots, htie, hmax]
    rw [hpct, hEq, div_self hM0, one_mul]

/-- C1 witness: the amended statement at the one-record class-1
scenario with positive density. -/
theorem C1_witness :
    0 < rowA.dotsperlanemile ∧ rowA.percentage = 100 ∧
    rowA.percentage ≤ 100 ∧ 0 ≤ rowA.percentage := by
  have h := C1_theorem ℚ (fun q => q) distZero [pingW] [gA] "1" 50 [rowA] rowA
    (by norm_num [classPass, densityRows, summarize, selectClass, pointCount, avlFilter,
      calcDensity, mapE, classMax, maxStep, finalizeRow, distZero, pingW, gA, rowA,
      List.filter])
    (List.mem_singleton.mpr rfl)
    (by norm_num [rowA])
  refine ⟨by norm_num [rowA], ?_, ?_, ?_⟩
  · exact h.2.2.2.2 rowA (List.mem_singleton.mpr rfl) (by norm_num [rowA])
  · exact h.2.1 rowA (List.mem_singleton.mpr rfl)
  · exact h.2.2.1 rowA (List.mem_singleton.mpr rfl) (by norm_num [rowA])

/-! ## Claim C2

Claim: in a class where no record has positive density the maximum is
taken to be 0, normalization is skipped, every record gets
`density_pct = 0`, and no division by zero occurs.

The loop maximum is indeed 0, but the script never skips the
normalization: `CalculateFields` always evaluates
`(!dotsperlanemile!/!dotsperlanemilemax!)*100`, which divides by the
stamped 0 on every row.  With at least one record the class pass
fails with a `ZeroDivisionError`; no record receives
`density_pct = 0`.  Only an empty class avoids the division (there is
no row to evaluate). -/

/-- C2 counterexample: a class-1 group of length 1 with no pings in
the window has density 0 — no positive density in the class.  The
class pass raises `ZeroDivisionError` instead of publishing the
record with `density_pct = 0`. -/
theorem C2_counterexample :
    densityRows distZero [] [gA] "1" 50 = .ok [dZeroA] ∧
    (∀ r ∈ [dZeroA], r.dotsperlanemile = 0) ∧
    classPass (fun q => q) distZero [] [gA] "1" 50 = .error "ZeroDivisionError" := by
  refine ⟨?_, by norm_num [dZeroA], ?_⟩
  · norm_num [densityRows, summarize, selectClass, pointCount, avlFilter,
      calcDensity, mapE, distZero, gA, dZeroA, List.filter]
  · norm_num [classPass, densityRows, summarize, selectClass, pointCount, avlFilter,
      calcDensity, mapE, classMax, maxStep, finalizeRow, distZero, gA, List.filter]

/-- C2 (amended): when no record of the class has positive density the
loop maximum is 0; if the class is empty the pass succeeds with no
rows, and if the class has at least one record the percentage
calculation divides by zero and the pass fails with
`ZeroDivisionError` — no record is assigned `density_pct = 0`. -/
theorem C2_theorem : ∀ (α : Type) (log1p : ℚ → α) (dist : Ping → GroupRow → ℚ)
    (pings : List Ping) (groups : List GroupRow) (c : String) (radius : ℚ)
    (drows : List DensityRow),
    densityRows dist pings groups c radius = .ok drows →
    (∀ r ∈ drows, ¬ 0 < r.dotsperlanemile) →
    classMax drows = 0 ∧
    (drows = [] → classPass log1p dist pings groups c radius = .ok []) ∧
    (drows ≠ [] → classPass log1p dist pings groups c radius = .error "ZeroDivisionError") := by
  intro α log1p dist pings groups c radius drows hd hnp
  have hM : classMax drows = 0 :=
    classMax_eq_zero_of_nonpos (fun r hr => not_lt.mp (hnp r hr))
  refine ⟨hM, ?_, ?_⟩
  · intro he
    unfold classPass
    rw [hd, he]
    rfl
  · intro hne
    obtain ⟨d0, rest, heq⟩ := List.exists_cons_of_ne_nil hne
    unfold classPass
    rw [hd, heq]
    rw [heq] at hM
    apply mapE_cons_error
    rw [finalizeRow, if_pos hM]

/-- C2 witness: the amended statement at the concrete one-record
zero-density class. -/
theorem C2_witness :
    classMax [dZeroA] = 0 ∧
    classPass (fun q => q) distZero [] [gA] "1" 50 = .error "ZeroDivisionError" := by
  have h := C2_theorem ℚ (fun q => q) distZero [] [gA] "1" 50 [dZeroA]
    (by norm_num [densityRows, summarize, selectClass, pointCount, avlFilter,
      calcDensity, mapE, distZero, gA, dZeroA, List.filter])
    (by norm_num [dZeroA])
  exact ⟨h.1, h.2.2 (by simp)⟩

/-! ## Claim C3

Claim: a RouteGroup with `total_length_miles` zero or null never
causes a division by zero: it is excluded from normalization and
never appears with a density.

Null lengths are excluded by the `SUM_LN_TOTALMI IS NOT NULL`
selection (lines 200-203), but a length of exactly 0 passes that
selection, and `!Point_Count!/!SUM_LN_TOTALMI!` (line 238) then
divides by zero: the class pass fails with a `ZeroDivisionError`
instead of excluding the group.  The claim's no-NaN/no-Infinity part
holds trivially (Python raises instead of producing them), but the
zero case is an error, not an exclusion. -/

/-- C3 counterexample: `gZ` has `SUM_LN_TOTALMI = 0` (zero, not
null).  It passes the selection, and the density calculation raises
`ZeroDivisionError` — the group is not silently excluded. -/
theorem C3_counterexample :
    gZ.sum_ln_totalmi = some 0 ∧
    selectClass "1" [gZ] = [(gZ, 0)] ∧
    classPass (fun q => q) distZero [] [gZ] "1" 50 = .error "ZeroDivisionError" := by
  refine ⟨rfl, ?_, ?_⟩
  · simp [selectClass, gZ, List.filterMap_cons]
  · norm_num [classPass, densityRows, summarize, selectClass, pointCount, avlFilter,
      calcDensity, mapE, classMax, maxStep, finalizeRow, distZero, gZ, List.filter]

/-- C3 (amended): the selection admits exactly the groups of the class
whose summed length is non-null; every row a successful class pass
publishes has a non-zero summed length; and if any selected group has
summed length exactly 0, the density computation fails (division by
zero) rather than excluding the group or producing a value. -/
theorem C3_theorem : ∀ (dist : Ping → GroupRow → ℚ) (pings : List Ping)
    (groups : List GroupRow) (c : String) (radius : ℚ),
    (∀ g L, (g, L) ∈ selectClass c groups → g.sum_ln_totalmi = some L) ∧
    (∀ (α : Type) (log1p : ℚ → α) (out : List (TrafficRow α)),
      classPass log1p dist pings groups c radius = .ok out →
      ∀ t ∈ out, t.sum_ln_totalmi ≠ 0) ∧
    (∀ s ∈ summarize dist pings groups c radius, s.sum_ln_totalmi = 0 →
      ∀ drows, densityRows dist pings groups c radius ≠ .ok drows) := by
  intro dist pings groups c radius
  refine ⟨?_, ?_, ?_⟩
  · intro g L h
    exact (selectClass_mem h).2.2
  · intro α log1p out hp t ht
    obtain ⟨drows, hd, hmap⟩ := classPass_ok hp
    obtain ⟨dr, hdr, hfin⟩ := mapE_ok_mem hmap ht
    obtain ⟨s, _hs, hcd⟩ := mapE_ok_mem hd hdr
    obtain ⟨hne, hts, _⟩ := calcDensity_ok hcd
    have h1 : t.sum_ln_totalmi = dr.sum_ln_totalmi := (finalizeRow_ok hfin).2.2.2.2.1
    have h2 : dr.sum_ln_totalmi = s.sum_ln_totalmi := congrArg SumRow.sum_ln_totalmi hts
    rw [h1, h2]
    exact hne
  · intro s hs hz drows h
    obtain ⟨dr, _, hcd⟩ := mapE_mem_ok h hs
    exact (calcDensity_ok hcd).1 hz

/-- C3 witness: the selection part of the amended statement evaluated
at the concrete zero-length class-1 group. -/
theorem C3_witness : gZ.sum_ln_totalmi = some 0 :=
  (C3_theorem distZero [] [gZ] "1" 50).1 gZ 0
    (by simp [selectClass, gZ, List.filterMap_cons])

/-! ## Claim C4

Claim: `activity_count` counts VehicleTrack geometries (directional
polylines, not raw pings) within the class radius, so a track built
from a single ping contributes 0.

The loop at lines 229-230 rebuilds the `avl_table` layer from the raw
AVL *points* view `AVL.dbo.vw_AVLplow24` and passes it to
`SummarizeNearby` — the built plow lines (`avlPlowLines`, produced in
`SnowLines`) are never used by `RouteStats`.  The attached field is
literally `Point_Count`: the number of filtered raw pings within the
radius.  A vehicle with a single ping within radius therefore
contributes 1, not 0.  The class-radius mapping (50 ft for classes
1-2, 25 ft for 3-4) is as claimed. -/

/-- Following the specification text: the class-specific search
radius, 50 feet for classes 1 and 2, 25 feet for classes 3 and 4.
Stated separately from the code's `snow_types` list so the two can be
compared. -/
def specClassRadius (c : String) : ℚ :=
  if c = "1" ∨ c = "2" then 50 else 25

/-- C4 counterexample: one vehicle that reported a single ping within
radius of the class-1 group `gA`.  The summarize output for `gA`
carries `Point_Count = 1`, where the claim says a single-ping track
contributes 0. -/
theorem C4_counterexample :
    summarize distZero [pingW] [gA] "1" 50 = [sA] ∧ sA.point_count = 1 := by
  constructor
  · norm_num [summarize, selectClass, pointCount, avlFilter, distZero, pingW, gA, sA,
      List.filter, List.filterMap_cons]
  · rfl

/-- C4 (amended): the radii in the code's `snow_types` list agree with
the spec's class-radius table, and every summarize row for class `c`
is a selected group (non-null length, matching class) whose
`Point_Count` is the number of raw AVL pings that pass the
`TEMPORAL < 25 and spd <= 35` filter and lie within the radius of the
group — pings, not built tracks. -/
theorem C4_theorem : ∀ (dist : Ping → GroupRow → ℚ) (pings : List Ping)
    (groups : List GroupRow) (c : String) (radius : ℚ) (s : SumRow),
    s ∈ summarize dist pings groups c radius →
    (∀ cr ∈ snowTypesList, cr.2 = specClassRadius cr.1) ∧
    ∃ g L, (g, L) ∈ selectClass c groups ∧ g.snow_type = c ∧ s.sum_ln_totalmi = L ∧
      s.point_count = (pings.filter (fun p =>
        decide (dist p g ≤ radius) && decide (p.temporal < 25 ∧ p.spd ≤ 35))).length := by
  intro dist pings groups c radius s hs
  constructor
  · decide
  · obtain ⟨g, L, hgl, rfl⟩ := summarize_mem hs
    refine ⟨g, L, hgl, (selectClass_mem hgl).2.1, rfl, ?_⟩
    show pointCount dist (avlFilter pings) g radius = _
    rw [pointCount, avlFilter, List.filter_filter]

/-- C4 witness: the amended statement at the single-ping scenario. -/
theorem C4_witness :
    ∃ g L, (g, L) ∈ selectClass "1" [gA] ∧ g.snow_type = "1" ∧ sA.sum_ln_totalmi = L ∧
      sA.point_count = ([pingW].filter (fun p =>
        decide (distZero p g ≤ 50) && decide (p.temporal < 25 ∧ p.spd ≤ 35))).length :=
  (C4_theorem distZero [pingW] [gA] "1" 50 sA
    (by norm_num [summarize, selectClass, pointCount, avlFilter, distZero, pingW, gA, sA,
      List.filter, List.filterMap_cons])).2

/-! ## Claim C8

Claim: `log_density_pct = ln(1 + density_pct)` for every record, 0 at
`density_pct = 0` and `ln 101` at `density_pct = 100`.

Line 249 computes `log_percentage = math.log1p(!percentage!)` from
the same row's freshly computed percentage, and `math.log1p(x)` is
`ln(1 + x)`.  Confirmed. -/

/-- C8: with `log1p` the natural-log semantics of `math.log1p`, every
row a class pass publishes has `log_percentage = ln (1 + percentage)`;
in particular it is 0 when the percentage is 0 and `ln 101` when the
percentage is 100. -/
theorem C8_theorem : ∀ (log1p : ℚ → ℝ),
    (∀ x : ℚ, log1p x = Real.log (1 + (x : ℝ))) →
    ∀ (dist : Ping → GroupRow → ℚ) (pings : List Ping) (groups : List GroupRow)
      (c : String) (radius : ℚ) (out : List (TrafficRow ℝ)),
      classPass log1p dist pings groups c radius = .ok out →
      ∀ r ∈ out, r.log_percentage = Real.log (1 + (r.percentage : ℝ)) ∧
        (r.percentage = 0 → r.log_percentage = 0) ∧
        (r.percentage = 100 → r.log_percentage = Real.log 101) := by
  intro log1p hlog dist pings groups c radius out hp r hr
  obtain ⟨drows, _hd, hmap⟩ := classPass_ok hp
  obtain ⟨dr, _hdr, hfin⟩ := mapE_ok_mem hmap hr
  have hpct := (finalizeRow_ok hfin).2.2.2.2.2.2.2.2.1
  have hlg := (finalizeRow_ok hfin).2.2.2.2.2.2.2.2.2
  have hmain : r.log_percentage = Real.log (1 + (r.percentage : ℝ)) := by
    rw [hlg, hlog, hpct]
  refine ⟨hmain, ?_, ?_⟩
  · intro h0
    rw [hmain, h0]
    norm_num
  · intro h100
    rw [hmain, h100]
    norm_num

/-- C8 witness: the one-record class-1 scenario evaluated with the
real `log1p`: the published row's log field equals `ln (1 + pct)` and
is `ln 101` at its percentage of 100. -/
theorem C8_witness :
    TrafficRow.log_percentage
        ({ snow_dist := "D1", snow_type := "1", road_name := "MAIN ST",
           sum_ln_totalmi := 1, point_count := 1, dotsperlanemile := 1,
           dotsperlanemilemax := 1, percentage := 100,
           log_percentage := Real.log 101 } : TrafficRow ℝ) =
      Real.log (1 + ((TrafficRow.percentage
        ({ snow_dist := "D1", snow_type := "1", road_name := "MAIN ST",
           sum_ln_totalmi := 1, point_count := 1, dotsperlanemile := 1,
           dotsperlanemilemax := 1, percentage := 100,
           log_percentage := Real.log 101 } : TrafficRow ℝ)) : ℝ)) := by
  have h := C8_theorem (fun x => Real.log (1 + (x : ℝ))) (fun _ => rfl)
    distZero [pingW] [gA] "1" 50
    [{ snow_dist := "D1", snow_type := "1", road_name := "MAIN ST",
       sum_ln_totalmi := 1, point_count := 1, dotsperlanemile := 1,
       dotsperlanemilemax := 1, percentage := 100,
       log_percentage := Real.log 101 }]
    (by norm_num [classPass, densityRows, summarize, selectClass, pointCount, avlFilter,
      calcDensity, mapE, classMax, maxStep, finalizeRow, distZero, pingW, gA,
      List.filter])
  exact (h _ (List.mem_singleton.mpr rfl)).1

end SnowTelemetry
